import Mathlib

/-!
Verification of the video-frame distribution subsystem of the
BreakingNewsEffects repository (src/displays/), as a shallow embedding:
UDP packet framing and fragmentation (`UDPVideoStreamer`), the per-sink
frame-rate limiter, the MJPEG HTTP streamer (`HTTPVideoStreamer`), the
pixel-format conversion shared by the Spout and NDI senders, the sink
selection chain of `ScrollingNewsDisplay`, `stop()` lifecycle, and the
connection-count queries.  Machine integers are modelled as `Nat` with
explicit `% 256` per byte; wall-clock times as `ℚ`; byte strings as
`List Nat`.
-/

/-! ## Byte packing (`struct.pack` big-endian), from `simple_streamer.py` -/

/-- Big-endian encoding of a `u32` value (`struct.pack('!I', n)`):
four bytes, most significant first. -/
def pack_u32_be (n : Nat) : List Nat :=
  [n / 2 ^ 24 % 256, n / 2 ^ 16 % 256, n / 2 ^ 8 % 256, n % 256]

/-- Big-endian encoding of a `u64` value (`struct.pack('!Q', n)`). -/
def pack_u64_be (n : Nat) : List Nat :=
  [n / 2 ^ 56 % 256, n / 2 ^ 48 % 256, n / 2 ^ 40 % 256, n / 2 ^ 32 % 256,
   n / 2 ^ 24 % 256, n / 2 ^ 16 % 256, n / 2 ^ 8 % 256, n % 256]

/-- `UDPVideoStreamer._create_packet`: 24-byte header
`struct.pack('!IIIIQ', 0x4E444953, frame_count, width, height, timestamp_us)`
followed by the JPEG payload bytes. -/
def createPacket (frame_count width height timestamp_us : Nat)
    (jpeg : List Nat) : List Nat :=
  pack_u32_be 0x4E444953 ++ pack_u32_be frame_count ++ pack_u32_be width ++
    pack_u32_be height ++ pack_u64_be timestamp_us ++ jpeg

/-- Maximum UDP datagram size used by `_send_packet`. -/
def maxPacketSize : Nat := 65507

/-- Fragment chunk size: `max_packet_size - 16` (16 bytes reserved for the
fragment header). -/
def chunkSize : Nat := maxPacketSize - 16

/-- `UDPVideoStreamer._send_packet`: if the whole packet fits in
`max_packet_size` it is sent as a single datagram; otherwise the *packet*
(header included) is split into chunks of `chunk_size` bytes and each chunk
is prefixed with `struct.pack('!IIII', 0x46524147, frame_count, i, total)`.
Returns the list of datagrams in emission order. -/
def sendPacket (frame_count : Nat) (packet : List Nat) : List (List Nat) :=
  if packet.length ≤ maxPacketSize then
    [packet]
  else
    let total := (packet.length + chunkSize - 1) / chunkSize
    (List.range total).map fun i =>
      pack_u32_be 0x46524147 ++ pack_u32_be frame_count ++ pack_u32_be i ++
        pack_u32_be total ++ ((packet.drop (i * chunkSize)).take chunkSize)

/-! ## Frame-rate limiter (`send_frame` gating in `UDPVideoStreamer` and
`NDISender`): drop the frame silently when
`current_time - last_frame_time < frame_interval`. -/

/-- One rate-limiter step: given `last_frame_time`, the current time and
the interval, return whether the frame passes the gate and the new
`last_frame_time` (updated only on acceptance). -/
def rateAllow (last now interval : ℚ) : Bool × ℚ :=
  if now - last < interval then (false, last) else (true, now)

/-- Run the rate limiter over a sequence of offer timestamps, returning the
accept/drop decision for each. -/
def runLimiter (interval : ℚ) : ℚ → List ℚ → List Bool
  | _, [] => []
  | last, t :: ts =>
    (rateAllow last t interval).1 ::
      runLimiter interval (rateAllow last t interval).2 ts

/-! ## HTTP MJPEG streamer (`HTTPVideoStreamer` / `StreamHandler`) -/

/-- ASCII byte values of a string's characters. -/
def strBytes (s : String) : List Nat :=
  s.data.map Char.toNat

/-- Routing of `StreamHandler.do_GET`. -/
inductive HttpRoute where
  | streamRoute
  | indexRoute
  | notFoundRoute
deriving DecidableEq

/-- `StreamHandler.do_GET`: `/stream.mjpg` streams MJPEG, `/` serves the
HTML index page, anything else answers 404. -/
def doGet (path : String) : HttpRoute :=
  if path = "/stream.mjpg" then HttpRoute.streamRoute
  else if path = "/" then HttpRoute.indexRoute
  else HttpRoute.notFoundRoute

/-- The bytes `StreamHandler.send_mjpeg_stream` writes for one dequeued
JPEG frame, exactly as in the source: the byte literals there are written
`b'\\r\\n--frame\\r\\n'` etc., whose characters are a literal backslash
followed by `r` (and likewise for `n`), not carriage-return/line-feed. -/
def mjpegPart (jpeg : List Nat) : List Nat :=
  strBytes "\\r\\n--frame\\r\\n" ++
    strBytes "Content-Type: image/jpeg\\r\\n" ++
    strBytes ("Content-Length: " ++ toString jpeg.length ++ "\\r\\n\\r\\n") ++
    jpeg ++ strBytes "\\r\\n"

/-- The part bytes the spec describes (modelled from the spec's words, for
comparison with `mjpegPart`): `--frame` CR LF `Content-Type: image/jpeg`
CR LF `Content-Length: N` CR LF CR LF, the JPEG bytes, CR LF. -/
def specMjpegPart (jpeg : List Nat) : List Nat :=
  strBytes "--frame\r\n" ++
    strBytes "Content-Type: image/jpeg\r\n" ++
    strBytes ("Content-Length: " ++ toString jpeg.length ++ "\r\n\r\n") ++
    jpeg ++ strBytes "\r\n"

/-- `HTTPVideoStreamer.send_frame` enqueue step on the bounded frame queue
(`queue.Queue(maxsize=10)`): `put_nowait`, and on `queue.Full` a
`get_nowait` (evicting the oldest frame) followed by `put_nowait`. -/
def httpEnqueue (q : List (List Nat)) (x : List Nat) : List (List Nat) :=
  if q.length < 10 then q ++ [x] else q.drop 1 ++ [x]

/-! ## Pixel-format conversion (`SpoutSender.send_frame` and
`NDISender._send_frame_direct`): channel reordering to BGRA, alpha
synthesis for 3-channel input, and resize to the target resolution. -/

/-- A pixel is its list of channel values. -/
abbrev Pixel := List Nat

/-- A row-major image: a list of rows of pixels. -/
abbrev Image := List (List Pixel)

/-- Width of an image: length of its first row (numpy `shape[1]`). -/
def imgWidth (img : Image) : Nat := (img.headD []).length

/-- 4-channel branch: `bgra[:, :, [0, 2]] = bgra[:, :, [2, 0]]` on a copy —
channels 0 and 2 swapped, channels 1 and 3 unchanged. -/
def rgbaToBgra (p : Pixel) : Pixel :=
  match p with
  | [r, g, b, a] => [b, g, r, a]
  | _ => p

/-- 3-channel branch: zeros, then `bgra[:, :, [2, 1, 0]] = rgb` and
`bgra[:, :, 3] = 255` — RGB placed in BGR order with alpha 255. -/
def rgbToBgra (p : Pixel) : Pixel :=
  match p with
  | [r, g, b] => [b, g, r, 255]
  | _ => p

/-- External `cv2.resize`, modelled as nearest-neighbour sampling; the
claims rely only on its output dimensions (`target_height` rows of
`target_width` pixels drawn from the input image). -/
def cvResize (img : Image) (tw th : Nat) : Image :=
  (List.range th).map fun y =>
    (List.range tw).map fun x =>
      (img.getD (y * img.length / th) []).getD (x * imgWidth img / tw) []

/-- `if bgra_frame.shape[:2] != (self.height, self.width): cv2.resize(...)`. -/
def resizeIfNeeded (img : Image) (tw th : Nat) : Image :=
  if img.length = th ∧ imgWidth img = tw then img else cvResize img tw th

/-- The conversion performed by `SpoutSender.send_frame` /
`NDISender._send_frame_direct` on a frame with `ch` channels: reorder to
BGRA (with alpha synthesis for 3-channel input), then resize to the target
resolution; `none` for unsupported channel counts. -/
def convertFrame (ch : Nat) (img : Image) (tw th : Nat) : Option Image :=
  if ch = 4 then some (resizeIfNeeded (img.map (List.map rgbaToBgra)) tw th)
  else if ch = 3 then some (resizeIfNeeded (img.map (List.map rgbToBgra)) tw th)
  else none

/-- Raw byte length of an image: total number of channel values. -/
def byteLength (img : Image) : Nat :=
  (img.map fun row => (row.map List.length).sum).sum

/-! ## Sink lifecycle state and `stop()` (all four senders).  Each state
carries an instrumentation counter for the release calls actually issued
to the OS/backend, so double-release is observable. -/

/-- How the NDI module was bound at import time. -/
inductive NdiMethod where
  | direct
  | ffmpeg
  | unavailable
deriving DecidableEq

/-- `UDPVideoStreamer` lifecycle state. -/
structure UdpState where
  sending : Bool
  inited : Bool
  sock : Option Unit
  closeCalls : Nat
deriving DecidableEq

/-- `UDPVideoStreamer.stop`: clears `is_sending`; if the socket is set,
closes it and sets it to `None`; clears `is_initialized`. -/
def udpStop (s : UdpState) : UdpState :=
  match s.sock with
  | some _ =>
      { sending := false, inited := false, sock := none,
        closeCalls := s.closeCalls + 1 }
  | none => { s with sending := false, inited := false }

/-- `HTTPVideoStreamer` lifecycle state. -/
structure HttpState where
  sending : Bool
  inited : Bool
  server : Option Unit
  serverCloseCalls : Nat
deriving DecidableEq

/-- `HTTPVideoStreamer.stop`: clears `is_sending`; if `self.server` is set,
calls `shutdown()`/`server_close()` (joining the thread) — but never sets
`self.server` to `None` — then clears `is_initialized`. -/
def httpStop (s : HttpState) : HttpState :=
  match s.server with
  | some _ =>
      { s with sending := false, inited := false, serverCloseCalls := s.serverCloseCalls + 1 }
  | none => { s with sending := false, inited := false }

/-- `SpoutSender` lifecycle state. -/
structure SpoutState where
  sending : Bool
  inited : Bool
  sender : Option Unit
  releaseCalls : Nat
deriving DecidableEq

/-- `SpoutSender.stop`: clears `is_sending`; if the sender handle is set,
releases it and sets it to `None`; clears `is_initialized`. -/
def spoutStop (s : SpoutState) : SpoutState :=
  match s.sender with
  | some _ =>
      { sending := false, inited := false, sender := none,
        releaseCalls := s.releaseCalls + 1 }
  | none => { s with sending := false, inited := false }

/-- `NDISender` lifecycle state. -/
structure NdiState where
  sending : Bool
  inited : Bool
  method : NdiMethod
  sender : Option Unit
  ffmpegProc : Option Unit
  senderDestroyCalls : Nat
  destroyCalls : Nat
deriving DecidableEq

/-- `NDISender.stop`: clears `is_sending`; for the direct backend destroys
the sender handle (setting it to `None`) and then *always* calls the global
`ndi.destroy()`; for the FFmpeg backend stops the child process (clearing
the handle); clears `is_initialized`. -/
def ndiStop (s : NdiState) : NdiState :=
  let s1 := { s with sending := false }
  let s2 :=
    match s1.method, s1.sender with
    | NdiMethod.direct, some _ =>
        { s1 with sender := none, senderDestroyCalls := s1.senderDestroyCalls + 1 }
    | NdiMethod.ffmpeg, _ =>
        match s1.ffmpegProc with
        | some _ => { s1 with ffmpegProc := none }
        | none => s1
    | _, _ => s1
  let s3 :=
    match s2.method with
    | NdiMethod.direct => { s2 with destroyCalls := s2.destroyCalls + 1 }
    | _ => s2
  { s3 with inited := false }

/-! ## Connection counts (`get_connection_count` of each sender) -/

/-- `UDPVideoStreamer.is_connected`. -/
def udpIsConnected (s : UdpState) : Bool := s.inited && s.sending

/-- `UDPVideoStreamer.get_connection_count`: 1 if active else 0. -/
def udpConnectionCount (s : UdpState) : Nat :=
  if udpIsConnected s then 1 else 0

/-- `HTTPVideoStreamer.is_connected`. -/
def httpIsConnected (s : HttpState) : Bool := s.inited && s.sending

/-- `HTTPVideoStreamer.get_connection_count`: 1 if active else 0. -/
def httpConnectionCount (s : HttpState) : Nat :=
  if httpIsConnected s then 1 else 0

/-- `SpoutSender.is_connected`. -/
def spoutIsConnected (s : SpoutState) : Bool := s.inited && s.sending

/-- `SpoutSender.get_connection_count`: 1 if active else 0. -/
def spoutConnectionCount (s : SpoutState) : Nat :=
  if spoutIsConnected s then 1 else 0

/-- `NDISender.get_connection_count`: 0 when uninitialized; for the direct
backend the receiver count reported by `ndi.send_get_no_connections`
(`receivers`); for the FFmpeg backend 1 while the child process runs. -/
def ndiConnectionCount (s : NdiState) (receivers : Nat) : Nat :=
  if s.inited = false then 0
  else
    match s.method with
    | NdiMethod.direct => if s.sender.isSome then receivers else 0
    | NdiMethod.ffmpeg => if s.ffmpegProc.isSome then 1 else 0
    | NdiMethod.unavailable => 0

/-! ## `send_frame` boolean results (`UDPVideoStreamer.send_frame`,
`NDISender.send_frame`).  `encodeOk` models `cv2.imencode` success,
`sendOk` that the socket write raised no exception, `backendOk` that the
backend delegate (`_send_frame_direct` / `_send_frame_ffmpeg`, including
its own channel-count check) succeeded. -/

/-- `UDPVideoStreamer.send_frame` result. -/
def udpSendFrame (inited hasSock : Bool) (last now interval : ℚ)
    (ch : Nat) (encodeOk sendOk : Bool) : Bool :=
  if !inited || !hasSock then false
  else if now - last < interval then true
  else if ch = 4 || ch = 3 then encodeOk && sendOk
  else false

/-- `NDISender.send_frame` result. -/
def ndiSendFrame (inited : Bool) (last now interval : ℚ)
    (m : NdiMethod) (backendOk : Bool) : Bool :=
  if !inited then false
  else if now - last < interval then true
  else
    match m with
    | NdiMethod.direct => backendOk
    | NdiMethod.ffmpeg => backendOk
    | NdiMethod.unavailable => false

/-! ## Sink selection (`ScrollingNewsDisplay.__init__` / `update`) -/

/-- Which streaming sink ended up active. -/
inductive ActiveSink where
  | spoutSink
  | ndiSink
  | httpSink
  | udpSink
  | noSink
deriving DecidableEq

/-- Python `str.lower()` on the ASCII method names, character-wise. -/
def strToLower (s : String) : String :=
  String.mk (s.data.map Char.toLower)

/-- `create_simple_streamer` method dispatch: `"http"` and `"udp"`
(case-insensitively) name a streamer kind, anything else yields `None`. -/
def simpleStreamerKind (method : String) : Option ActiveSink :=
  if strToLower method = "http" then some ActiveSink.httpSink
  else if strToLower method = "udp" then some ActiveSink.udpSink
  else none

/-- The selection chain of `ScrollingNewsDisplay.__init__`: when streaming
is enabled, try Spout first (available and initialized), then NDI, then the
configured fallback streamer; a candidate is activated only if its
initialization succeeded, and if every candidate fails no sink is active. -/
def selectStreaming (enabled spoutAvail spoutInit ndiAvail ndiInit : Bool)
    (method : String) (fallbackInit : Bool) : ActiveSink :=
  if !enabled then ActiveSink.noSink
  else if spoutAvail && spoutInit then ActiveSink.spoutSink
  else if ndiAvail && ndiInit then ActiveSink.ndiSink
  else
    match simpleStreamerKind method with
    | some k => if fallbackInit then k else ActiveSink.noSink
    | none => ActiveSink.noSink

/-- The dispatch in `ScrollingNewsDisplay.update`: which sink (if any)
receives the frame this tick (`noSink` means nothing is sent; NDI and the
simple streamer only send on the throttled ticks). -/
def updateStreamTarget (s : ActiveSink) (shouldUpdate : Bool) : ActiveSink :=
  match s with
  | ActiveSink.spoutSink => ActiveSink.spoutSink
  | ActiveSink.ndiSink =>
      if shouldUpdate then ActiveSink.ndiSink else ActiveSink.noSink
  | ActiveSink.httpSink =>
      if shouldUpdate then ActiveSink.httpSink else ActiveSink.noSink
  | ActiveSink.udpSink =>
      if shouldUpdate then ActiveSink.udpSink else ActiveSink.noSink
  | ActiveSink.noSink => ActiveSink.noSink

/-! ## Lemmas about the framing -/

theorem pack_u32_be_length (n : Nat) : (pack_u32_be n).length = 4 := rfl

theorem pack_u64_be_length (n : Nat) : (pack_u64_be n).length = 8 := rfl

theorem createPacket_length (fc w h ts : Nat) (jpeg : List Nat) :
    (createPacket fc w h ts jpeg).length = 24 + jpeg.length := by
  simp [createPacket, pack_u32_be, pack_u64_be]
  omega

theorem sendPacket_length (fc : Nat) (packet : List Nat) :
    (sendPacket fc packet).length =
      if packet.length ≤ maxPacketSize then 1
      else (packet.length + chunkSize - 1) / chunkSize := by
  unfold sendPacket
  split
  · rfl
  · simp

theorem sendPacket_get (fc : Nat) (packet : List Nat) (i : Nat)
    (hbig : ¬ packet.length ≤ maxPacketSize)
    (hi : i < (packet.length + chunkSize - 1) / chunkSize) :
    (sendPacket fc packet)[i]? =
      some (pack_u32_be 0x46524147 ++ pack_u32_be fc ++ pack_u32_be i ++
        pack_u32_be ((packet.length + chunkSize - 1) / chunkSize) ++
        ((packet.drop (i * chunkSize)).take chunkSize)) := by
  unfold sendPacket
  rw [if_neg hbig]
  simp [List.getElem?_map, List.getElem?_range, hi]

/-- **C1 counterexample.**  A JPEG payload of 65484 bytes gives a whole
packet of 65508 bytes, which exceeds 65507, so the streamer fragments; the
code emits `ceil((24 + 65484) / 65491) = 2` fragment datagrams, while the
claim's formula `ceil(len(payload) / (M - 16)) = ceil(65484 / 65491) = 1`
predicts one. -/
theorem fragment_count_counterexample :
    65507 < 24 + (List.replicate 65484 (7 : Nat)).length ∧
    (sendPacket 5 (createPacket 5 1920 1080 123 (List.replicate 65484 (7 : Nat)))).length = 2 ∧
    ((List.replicate 65484 (7 : Nat)).length + (65507 - 16) - 1) / (65507 - 16) = 1 ∧
    (sendPacket 5 (createPacket 5 1920 1080 123 (List.replicate 65484 (7 : Nat)))).length ≠
      ((List.replicate 65484 (7 : Nat)).length + (65507 - 16) - 1) / (65507 - 16) := by
  have hlen : (List.replicate 65484 (7 : Nat)).length = 65484 := List.length_replicate _ _
  have hpkt : (createPacket 5 1920 1080 123 (List.replicate 65484 (7 : Nat))).length = 65508 := by
    rw [createPacket_length, hlen]
  have hsend := sendPacket_length 5 (createPacket 5 1920 1080 123 (List.replicate 65484 (7 : Nat)))
  rw [hpkt] at hsend
  rw [hsend]
  refine ⟨by rw [hlen]; decide, by norm_num [maxPacketSize, chunkSize], by rw [hlen], ?_⟩
  rw [hlen]
  norm_num [maxPacketSize, chunkSize]

/-- **C1 (amended).**  When the whole packet (24-byte header plus payload)
exceeds 65507 bytes, `_send_packet` emits exactly
`ceil((24 + len(payload)) / (M - 16))` fragment datagrams — the *packet*,
header included, is what gets split — and the datagram at position `i`
carries a FragmentHeader with the same frame sequence number, 0-based
fragment index `i`, and the total fragment count, so fragments appear in
index order with each index unique in `[0, fragment_count)`. -/
theorem fragment_emission (fc w h ts : Nat) (payload : List Nat)
    (hbig : 65507 < 24 + payload.length) :
    (sendPacket fc (createPacket fc w h ts payload)).length =
      (24 + payload.length + 65490) / 65491 ∧
    ∀ i, i < (24 + payload.length + 65490) / 65491 →
      (sendPacket fc (createPacket fc w h ts payload))[i]? =
        some (pack_u32_be 0x46524147 ++ pack_u32_be fc ++ pack_u32_be i ++
          pack_u32_be ((24 + payload.length + 65490) / 65491) ++
          (((createPacket fc w h ts payload).drop (i * 65491)).take 65491)) := by
  have hpkt : (createPacket fc w h ts payload).length = 24 + payload.length :=
    createPacket_length fc w h ts payload
  have hM : ¬ (createPacket fc w h ts payload).length ≤ maxPacketSize := by
    rw [hpkt]; simp only [maxPacketSize]; omega
  have hceil : ((createPacket fc w h ts payload).length + chunkSize - 1) / chunkSize =
      (24 + payload.length + 65490) / 65491 := by
    rw [hpkt]; norm_num [chunkSize, maxPacketSize]
  constructor
  · rw [sendPacket_length, if_neg hM, hceil]
  · intro i hi
    have := sendPacket_get fc (createPacket fc w h ts payload) i hM (by rw [hceil]; exact hi)
    rw [hceil] at this
    rw [this]
    norm_num [chunkSize, maxPacketSize]

/-- **C1 witness**: the amended theorem at the concrete 65484-byte payload,
which fragments into exactly 2 datagrams. -/
theorem fragment_emission_witness :
    (sendPacket 5 (createPacket 5 1920 1080 123 (List.replicate 65484 (7 : Nat)))).length =
      (24 + (List.replicate 65484 (7 : Nat)).length + 65490) / 65491 ∧
    ∀ i, i < (24 + (List.replicate 65484 (7 : Nat)).length + 65490) / 65491 →
      (sendPacket 5 (createPacket 5 1920 1080 123 (List.replicate 65484 (7 : Nat))))[i]? =
        some (pack_u32_be 0x46524147 ++ pack_u32_be 5 ++ pack_u32_be i ++
          pack_u32_be ((24 + (List.replicate 65484 (7 : Nat)).length + 65490) / 65491) ++
          (((createPacket 5 1920 1080 123 (List.replicate 65484 (7 : Nat))).drop
            (i * 65491)).take 65491)) :=
  fragment_emission 5 1920 1080 123 (List.replicate 65484 (7 : Nat))
    (by rw [List.length_replicate]; decide)

/-- **C2.**  A frame whose whole packet fits in 65507 bytes is sent as
exactly one datagram consisting of the 24-byte big-endian header
(magic `0x4E444953`, frame sequence, width, height, `u64` timestamp)
immediately followed by the JPEG payload; the two magic values encode
big-endian to the ASCII bytes "NDIS" and "FRAG"; and every fragment
datagram of an oversized packet starts with the big-endian fragment header
(magic `0x46524147`, frame sequence, fragment index, fragment count)
followed by its chunk. -/
theorem whole_frame_format (fc w h ts : Nat) (payload : List Nat)
    (hfit : 24 + payload.length ≤ 65507) :
    sendPacket fc (createPacket fc w h ts payload) = [createPacket fc w h ts payload] ∧
    createPacket fc w h ts payload =
      pack_u32_be 0x4E444953 ++ pack_u32_be fc ++ pack_u32_be w ++
        pack_u32_be h ++ pack_u64_be ts ++ payload ∧
    (pack_u32_be 0x4E444953 ++ pack_u32_be fc ++ pack_u32_be w ++
        pack_u32_be h ++ pack_u64_be ts).length = 24 ∧
    pack_u32_be 0x4E444953 = [0x4E, 0x44, 0x49, 0x53] ∧
    pack_u32_be 0x46524147 = [0x46, 0x52, 0x41, 0x47] ∧
    (∀ fc2 : Nat, ∀ pkt : List Nat, 65507 < pkt.length →
      ∀ d ∈ sendPacket fc2 pkt, ∃ i : Nat,
        d = pack_u32_be 0x46524147 ++ pack_u32_be fc2 ++ pack_u32_be i ++
          pack_u32_be ((pkt.length + 65490) / 65491) ++
          ((pkt.drop (i * 65491)).take 65491)) := by
  refine ⟨?_, rfl, rfl, by decide, by decide, ?_⟩
  · unfold sendPacket
    rw [if_pos (by rw [createPacket_length]; simpa [maxPacketSize] using hfit)]
  · intro fc2 pkt hbig d hd
    unfold sendPacket at hd
    rw [if_neg (by simp only [maxPacketSize]; omega)] at hd
    simp only [List.mem_map, List.mem_range] at hd
    obtain ⟨i, _, hdef⟩ := hd
    refine ⟨i, ?_⟩
    rw [← hdef]
    norm_num [chunkSize, maxPacketSize]

/-- **C2 witness** at a small concrete payload. -/
theorem whole_frame_format_witness :
    sendPacket 3 (createPacket 3 1920 1080 99 [1, 2, 3]) =
      [createPacket 3 1920 1080 99 [1, 2, 3]] ∧
    createPacket 3 1920 1080 99 [1, 2, 3] =
      pack_u32_be 0x4E444953 ++ pack_u32_be 3 ++ pack_u32_be 1920 ++
        pack_u32_be 1080 ++ pack_u64_be 99 ++ [1, 2, 3] ∧
    (pack_u32_be 0x4E444953 ++ pack_u32_be 3 ++ pack_u32_be 1920 ++
        pack_u32_be 1080 ++ pack_u64_be 99).length = 24 ∧
    pack_u32_be 0x4E444953 = [0x4E, 0x44, 0x49, 0x53] ∧
    pack_u32_be 0x46524147 = [0x46, 0x52, 0x41, 0x47] ∧
    (∀ fc2 : Nat, ∀ pkt : List Nat, 65507 < pkt.length →
      ∀ d ∈ sendPacket fc2 pkt, ∃ i : Nat,
        d = pack_u32_be 0x46524147 ++ pack_u32_be fc2 ++ pack_u32_be i ++
          pack_u32_be ((pkt.length + 65490) / 65491) ++
          ((pkt.drop (i * 65491)).take 65491)) :=
  whole_frame_format 3 1920 1080 99 [1, 2, 3] (by decide)

/-! ## Rate limiter theorems (C3) -/

/-- **C3 counterexample.**  With `target_fps = 10` (interval 1/10 s) and
`last_frame_time` initially 0, offers at 0 ms, 50 ms, 100 ms, 150 ms yield
dropped, dropped, accepted, dropped: the frame at 0 ms is *dropped*
(`0 - 0 < 0.1`), so the claimed sequence accepted, dropped, accepted,
dropped is wrong. -/
theorem rate_limiter_counterexample :
    runLimiter (1 / 10) 0 [0, 1 / 20, 1 / 10, 3 / 20] =
      [false, false, true, false] ∧
    runLimiter (1 / 10) 0 [0, 1 / 20, 1 / 10, 3 / 20] ≠
      [true, false, true, false] := by
  constructor
  · simp only [runLimiter, rateAllow]
    norm_num
  · simp only [runLimiter, rateAllow]
    norm_num

/-- **C3 (amended).**  `allow` accepts and records `last_time := now` iff
`now - last_time ≥ 1/target_fps`, and otherwise drops the frame leaving
`last_time` unchanged; consequently, with `target_fps = 10` and `last_time`
initially 0, frames offered at 0 ms, 50 ms, 100 ms, 150 ms are dropped,
dropped, accepted, dropped in that order (the 0 ms frame fails the gate
because `0 - 0 < 0.1`). -/
theorem rate_limiter_behavior :
    (∀ last now interval : ℚ,
      ((rateAllow last now interval).1 = true ↔ interval ≤ now - last) ∧
      (rateAllow last now interval).2 =
        (if interval ≤ now - last then now else last)) ∧
    runLimiter (1 / 10) 0 [0, 1 / 20, 1 / 10, 3 / 20] =
      [false, false, true, false] := by
  constructor
  · intro last now interval
    constructor
    · unfold rateAllow
      split
      · simp; linarith
      · simp; linarith
    · unfold rateAllow
      split
      · rw [if_neg (by linarith)]
      · rw [if_pos (by linarith)]
  · simp only [runLimiter, rateAllow]
    norm_num

/-! ## MJPEG streamer theorems (C4) -/

/-- **C4 (code divergence at the failing input).**  The path routing works
as claimed (`/stream.mjpg` streams, `/` serves the index page, other paths
404), but for a queued JPEG `FF D8 FF D9` the streamed part bytes contain
literal backslash characters (byte 92) and no carriage return (byte 13) at
all: the source writes `b'\\r\\n--frame\\r\\n'` with doubly-escaped
sequences, so the emitted part differs from the CRLF-delimited part the
claim describes. -/
theorem mjpeg_stream_divergence :
    doGet "/stream.mjpg" = HttpRoute.streamRoute ∧
    doGet "/" = HttpRoute.indexRoute ∧
    doGet "/other" = HttpRoute.notFoundRoute ∧
    (mjpegPart [255, 216, 255, 217]).contains 92 = true ∧
    (mjpegPart [255, 216, 255, 217]).contains 13 = false ∧
    mjpegPart [255, 216, 255, 217] ≠ specMjpegPart [255, 216, 255, 217] := by
  refine ⟨by decide, by decide, by decide, ?_, ?_, ?_⟩
  · decide
  · decide
  · decide

/-! ## HTTP frame-queue theorems (C6) -/

/-- **C6.**  The HTTP sink's frame queue never exceeds 10 frames (both for
a single enqueue from any state within bound and along any whole send
sequence from empty); when the queue is full the oldest queued frame is
evicted to make room for the new one; and after 15 frames are sent with no
consumer the queue holds exactly the 10 most recently sent frames in send
order. -/
theorem http_queue_bound :
    (∀ (q : List (List Nat)) (x : List Nat), q.length ≤ 10 →
      (httpEnqueue q x).length ≤ 10) ∧
    (∀ frames : List (List Nat), (frames.foldl httpEnqueue []).length ≤ 10) ∧
    (∀ (q : List (List Nat)) (x : List Nat), q.length = 10 →
      httpEnqueue q x = q.drop 1 ++ [x]) ∧
    ((List.range 15).map (fun i => [i])).foldl httpEnqueue [] =
      (((List.range 15).map (fun i => [i])).drop 5) := by
  have hstep : ∀ (q : List (List Nat)) (x : List Nat), q.length ≤ 10 →
      (httpEnqueue q x).length ≤ 10 := by
    intro q x hq
    unfold httpEnqueue
    split
    · simp; omega
    · simp
      omega
  have hfold : ∀ (frames : List (List Nat)) (q : List (List Nat)), q.length ≤ 10 →
      ((frames.foldl httpEnqueue q).length ≤ 10) := by
    intro frames
    induction frames with
    | nil => intro q hq; simpa using hq
    | cons f fs ih =>
      intro q hq
      simp only [List.foldl_cons]
      exact ih _ (hstep q f hq)
  refine ⟨hstep, fun frames => hfold frames [] (by simp), ?_, by decide⟩
  intro q x hq
  unfold httpEnqueue
  rw [if_neg (by omega)]

/-- **C6 witness**: a full queue of 10 frames evicts its oldest entry. -/
theorem http_queue_bound_witness :
    httpEnqueue [[0], [1], [2], [3], [4], [5], [6], [7], [8], [9]] [99] =
      [[1], [2], [3], [4], [5], [6], [7], [8], [9], [99]] := by
  have h := http_queue_bound.2.2.1
    [[0], [1], [2], [3], [4], [5], [6], [7], [8], [9]] [99] (by decide)
  simpa using h

/-! ## Frame-conversion theorems (C7) -/

theorem sum_map_const {α : Type} (l : List α) (f : α → Nat) (c : Nat)
    (h : ∀ x ∈ l, f x = c) : (l.map f).sum = l.length * c := by
  induction l with
  | nil => simp
  | cons x t ih =>
    simp only [List.map_cons, List.sum_cons, List.length_cons]
    rw [h x (List.mem_cons_self x t),
      ih (fun y hy => h y (List.mem_cons_of_mem x hy))]
    ring

theorem rgbaToBgra_length (p : Pixel) (h : p.length = 4) :
    (rgbaToBgra p).length = 4 := by
  rcases p with _ | ⟨r, p⟩
  · simp at h
  rcases p with _ | ⟨g, p⟩
  · simp at h
  rcases p with _ | ⟨b, p⟩
  · simp at h
  rcases p with _ | ⟨a, p⟩
  · simp at h
  rcases p with _ | ⟨x, p⟩
  · rfl
  · simp at h

theorem rgbToBgra_length (p : Pixel) (h : p.length = 3) :
    (rgbToBgra p).length = 4 := by
  rcases p with _ | ⟨r, p⟩
  · simp at h
  rcases p with _ | ⟨g, p⟩
  · simp at h
  rcases p with _ | ⟨b, p⟩
  · simp at h
  rcases p with _ | ⟨x, p⟩
  · rfl
  · simp at h

theorem imgWidth_map (img : Image) (f : Pixel → Pixel) :
    imgWidth (img.map (List.map f)) = imgWidth img := by
  cases img with
  | nil => rfl
  | cons r t => simp [imgWidth]

theorem cvResize_shape (img : Image) (tw th : Nat)
    (hH : 0 < img.length) (hW : 0 < imgWidth img)
    (hrect : ∀ row ∈ img, row.length = imgWidth img)
    (hpix : ∀ row ∈ img, ∀ p ∈ row, p.length = 4) :
    (cvResize img tw th).length = th ∧
    (∀ row ∈ cvResize img tw th, row.length = tw) ∧
    (∀ row ∈ cvResize img tw th, ∀ p ∈ row, p.length = 4) := by
  refine ⟨by simp [cvResize], ?_, ?_⟩
  · intro row hrow
    simp only [cvResize, List.mem_map, List.mem_range] at hrow
    obtain ⟨y, hy, rfl⟩ := hrow
    simp
  · intro row hrow p hp
    simp only [cvResize, List.mem_map, List.mem_range] at hrow
    obtain ⟨y, hy, rfl⟩ := hrow
    simp only [List.mem_map, List.mem_range] at hp
    obtain ⟨x, hx, rfl⟩ := hp
    have hth : 0 < th := Nat.lt_of_le_of_lt (Nat.zero_le y) hy
    have htw : 0 < tw := Nat.lt_of_le_of_lt (Nat.zero_le x) hx
    have hyi : y * img.length / th < img.length := by
      rw [Nat.div_lt_iff_lt_mul hth]
      simpa [Nat.mul_comm] using mul_lt_mul_of_pos_right hy hH
    have hrowmem : img.getD (y * img.length / th) [] ∈ img := by
      rw [List.getD_eq_getElem img [] hyi]
      exact List.getElem_mem hyi
    have hrl : (img.getD (y * img.length / th) []).length = imgWidth img :=
      hrect _ hrowmem
    have hxi : x * imgWidth img / tw < (img.getD (y * img.length / th) []).length := by
      rw [hrl, Nat.div_lt_iff_lt_mul htw]
      simpa [Nat.mul_comm] using mul_lt_mul_of_pos_right hx hW
    have hpmem :
        (img.getD (y * img.length / th) []).getD (x * imgWidth img / tw) [] ∈
          img.getD (y * img.length / th) [] := by
      rw [List.getD_eq_getElem _ [] hxi]
      exact List.getElem_mem hxi
    exact hpix _ hrowmem _ hpmem

theorem convert_shape_core (img : Image) (f : Pixel → Pixel) (ch tw th : Nat)
    (hf : ∀ p : Pixel, p.length = ch → (f p).length = 4)
    (hrect : ∀ row ∈ img, row.length = imgWidth img)
    (hpix : ∀ row ∈ img, ∀ p ∈ row, p.length = ch)
    (hH : 0 < img.length) (hW : 0 < imgWidth img) :
    (∀ row ∈ resizeIfNeeded (img.map (List.map f)) tw th, ∀ p ∈ row, p.length = 4) ∧
    (resizeIfNeeded (img.map (List.map f)) tw th).length = th ∧
    (∀ row ∈ resizeIfNeeded (img.map (List.map f)) tw th, row.length = tw) ∧
    byteLength (resizeIfNeeded (img.map (List.map f)) tw th) = tw * th * 4 := by
  have hcpix : ∀ row ∈ img.map (List.map f), ∀ q ∈ row, q.length = 4 := by
    intro row hrow q hq
    simp only [List.mem_map] at hrow
    obtain ⟨r0, hr0, rfl⟩ := hrow
    simp only [List.mem_map] at hq
    obtain ⟨p0, hp0, rfl⟩ := hq
    exact hf p0 (hpix r0 hr0 p0 hp0)
  have hcw : imgWidth (img.map (List.map f)) = imgWidth img := imgWidth_map img f
  have hcrect : ∀ row ∈ img.map (List.map f),
      row.length = imgWidth (img.map (List.map f)) := by
    intro row hrow
    simp only [List.mem_map] at hrow
    obtain ⟨r0, hr0, rfl⟩ := hrow
    rw [hcw, List.length_map]
    exact hrect r0 hr0
  have hbyte : ∀ (out : Image) (hr : ∀ row ∈ out, row.length = tw)
      (hp : ∀ row ∈ out, ∀ p ∈ row, p.length = 4),
      byteLength out = out.length * (tw * 4) := by
    intro out hr hp
    unfold byteLength
    apply sum_map_const
    intro row hrow
    rw [sum_map_const row List.length 4 (hp row hrow), hr row hrow]
  unfold resizeIfNeeded
  split
  · rename_i hcond
    obtain ⟨hlen, hwid⟩ := hcond
    have hlenmap : (img.map (List.map f)).length = th := hlen
    have hrows : ∀ row ∈ img.map (List.map f), row.length = tw := by
      intro row hrow
      rw [hcrect row hrow, hwid]
    refine ⟨hcpix, hlenmap, hrows, ?_⟩
    rw [hbyte _ hrows hcpix, hlenmap]
    ring
  · have hH' : 0 < (img.map (List.map f)).length := by
      rw [List.length_map]; exact hH
    have hW' : 0 < imgWidth (img.map (List.map f)) := by rw [hcw]; exact hW
    obtain ⟨h1, h2, h3⟩ := cvResize_shape (img.map (List.map f)) tw th hH' hW' hcrect hcpix
    refine ⟨h3, h1, h2, ?_⟩
    rw [hbyte _ h2 h3, h1]
    ring

/-- **C7.**  For every frame with 3 or 4 channels accepted by the local
(BGRA) conversion of `SpoutSender.send_frame` /
`NDISender._send_frame_direct`: a 4-channel pixel `[r, g, b, a]` becomes
`[b, g, r, a]` (channels 0 and 2 swapped, channels 1 and 3 unchanged); a
3-channel pixel `[r, g, b]` becomes `[b, g, r, 255]` (BGR order, alpha
255); and in both cases the converted-and-resized output has exactly 4
channels per pixel and raw byte length `target_width * target_height * 4`. -/
theorem frame_conversion (ch : Nat) (img : Image) (tw th : Nat) (out : Image)
    (hrect : ∀ row ∈ img, row.length = imgWidth img)
    (hpix : ∀ row ∈ img, ∀ p ∈ row, p.length = ch)
    (hH : 0 < img.length) (hW : 0 < imgWidth img)
    (hconv : convertFrame ch img tw th = some out) :
    (∀ r g b a : Nat, rgbaToBgra [r, g, b, a] = [b, g, r, a]) ∧
    (∀ r g b : Nat, rgbToBgra [r, g, b] = [b, g, r, 255]) ∧
    (∀ row ∈ out, ∀ p ∈ row, p.length = 4) ∧
    out.length = th ∧
    (∀ row ∈ out, row.length = tw) ∧
    byteLength out = tw * th * 4 := by
  refine ⟨fun r g b a => rfl, fun r g b => rfl, ?_⟩
  unfold convertFrame at hconv
  split at hconv
  · rename_i h4
    subst h4
    obtain rfl : resizeIfNeeded (img.map (List.map rgbaToBgra)) tw th = out :=
      Option.some.inj hconv
    obtain ⟨a1, a2, a3, a4⟩ :=
      convert_shape_core img rgbaToBgra 4 tw th rgbaToBgra_length hrect hpix hH hW
    exact ⟨a1, a2, a3, a4⟩
  · split at hconv
    · rename_i h3
      subst h3
      obtain rfl : resizeIfNeeded (img.map (List.map rgbToBgra)) tw th = out :=
        Option.some.inj hconv
      obtain ⟨a1, a2, a3, a4⟩ :=
        convert_shape_core img rgbToBgra 3 tw th rgbToBgra_length hrect hpix hH hW
      exact ⟨a1, a2, a3, a4⟩
    · exact absurd hconv (by simp)

/-- **C7 witness**: a 1×1 RGBA frame `[1, 2, 3, 4]` converts to the BGRA
frame `[3, 2, 1, 4]` with the claimed shape. -/
theorem frame_conversion_witness :
    (∀ r g b a : Nat, rgbaToBgra [r, g, b, a] = [b, g, r, a]) ∧
    (∀ r g b : Nat, rgbToBgra [r, g, b] = [b, g, r, 255]) ∧
    (∀ row ∈ ([[[3, 2, 1, 4]]] : Image), ∀ p ∈ row, p.length = 4) ∧
    ([[[3, 2, 1, 4]]] : Image).length = 1 ∧
    (∀ row ∈ ([[[3, 2, 1, 4]]] : Image), row.length = 1) ∧
    byteLength [[[3, 2, 1, 4]]] = 1 * 1 * 4 :=
  frame_conversion 4 [[[1, 2, 3, 4]]] 1 1 [[[3, 2, 1, 4]]]
    (by decide) (by decide) (by decide) (by decide) (by decide)

/-! ## `stop()` lifecycle theorems (C8) -/

/-- **C8 counterexample.**  On an initialized HTTP sink a second `stop()`
invokes `server.shutdown()`/`server_close()` again (the release counter
reaches 2, not 1), because `stop` never clears `self.server`; likewise the
direct-NDI sink calls the global `ndi.destroy()` on every `stop()`.  So the
claim that no resource is released a second time is false. -/
theorem stop_double_close_counterexample :
    (httpStop ⟨true, true, some (), 0⟩).serverCloseCalls = 1 ∧
    (httpStop (httpStop ⟨true, true, some (), 0⟩)).serverCloseCalls = 2 ∧
    (ndiStop ⟨true, true, NdiMethod.direct, some (), none, 0, 0⟩).destroyCalls = 1 ∧
    (ndiStop (ndiStop ⟨true, true, NdiMethod.direct, some (), none, 0, 0⟩)).destroyCalls = 2 :=
  ⟨rfl, rfl, rfl, rfl⟩

/-- **C8 (amended).**  Calling `stop()` twice raises no error and leaves
every sink reporting itself uninitialized; the UDP and Spout sinks clear
their handle on the first call so the second releases nothing (stop is
fully idempotent there), and the direct-NDI sender handle is also destroyed
at most once; but the HTTP sink leaves `self.server` set and so invokes
`shutdown()`/`server_close()` again on the second call, and the direct-NDI
backend calls the global `ndi.destroy()` on every call (both harmless since
the underlying closes are idempotent, but they are second release calls). -/
theorem stop_second_call (u : UdpState) (sp : SpoutState) (hs : HttpState)
    (n : NdiState) :
    udpStop (udpStop u) = udpStop u ∧
    spoutStop (spoutStop sp) = spoutStop sp ∧
    (udpStop u).inited = false ∧
    (spoutStop sp).inited = false ∧
    (httpStop (httpStop hs)).inited = false ∧
    (hs.server = some () →
      (httpStop (httpStop hs)).serverCloseCalls = hs.serverCloseCalls + 2) ∧
    (n.method = NdiMethod.direct →
      (ndiStop (ndiStop n)).destroyCalls = n.destroyCalls + 2) ∧
    (ndiStop (ndiStop n)).inited = false ∧
    (ndiStop (ndiStop n)).senderDestroyCalls = (ndiStop n).senderDestroyCalls := by
  obtain ⟨use, uin, usock, uc⟩ := u
  obtain ⟨spse, spin, spsend, spc⟩ := sp
  obtain ⟨hse, hin, hserver, hc⟩ := hs
  obtain ⟨nse, nin, nm, nsend, nff, nsd, nd⟩ := n
  refine ⟨?_, ?_, ?_, ?_, ?_, ?_, ?_, ?_, ?_⟩
  · cases usock <;> rfl
  · cases spsend <;> rfl
  · cases usock <;> rfl
  · cases spsend <;> rfl
  · cases hserver <;> rfl
  · intro h
    cases hserver with
    | none => exact absurd h (by simp)
    | some u => rfl
  · intro h
    cases h
    cases nsend <;> cases nff <;> rfl
  · cases nm <;> cases nsend <;> cases nff <;> rfl
  · cases nm <;> cases nsend <;> cases nff <;> rfl

/-- **C8 witness**: the amended theorem at concrete initialized sinks. -/
theorem stop_second_call_witness :
    udpStop (udpStop ⟨true, true, some (), 0⟩) = udpStop ⟨true, true, some (), 0⟩ ∧
    (httpStop (httpStop ⟨true, true, some (), 0⟩)).serverCloseCalls = 0 + 2 ∧
    (ndiStop (ndiStop ⟨true, true, NdiMethod.direct, some (), none, 0, 0⟩)).destroyCalls = 0 + 2 :=
  ⟨(stop_second_call ⟨true, true, some (), 0⟩ ⟨true, true, some (), 0⟩
      ⟨true, true, some (), 0⟩ ⟨true, true, NdiMethod.direct, some (), none, 0, 0⟩).1,
   (stop_second_call ⟨true, true, some (), 0⟩ ⟨true, true, some (), 0⟩
      ⟨true, true, some (), 0⟩
      ⟨true, true, NdiMethod.direct, some (), none, 0, 0⟩).2.2.2.2.2.1 rfl,
   (stop_second_call ⟨true, true, some (), 0⟩ ⟨true, true, some (), 0⟩
      ⟨true, true, some (), 0⟩
      ⟨true, true, NdiMethod.direct, some (), none, 0, 0⟩).2.2.2.2.2.2.1 rfl⟩

/-! ## `send_frame` result theorems (C9) -/

/-- **C9.**  For initialized UDP/NDI sinks a frame dropped by the rate
limiter makes `send_frame` return `True` — indistinguishable from a
successful transmission — while `False` arises only from an uninitialized
sink (or missing socket), an unsupported channel count, or an
encoding/backend failure. -/
theorem send_result_semantics (inited hasSock : Bool) (last now interval : ℚ)
    (ch : Nat) (encOk sendOk : Bool) (m : NdiMethod) (bOk : Bool) :
    (inited = true → hasSock = true → now - last < interval →
      udpSendFrame inited hasSock last now interval ch encOk sendOk = true) ∧
    (inited = true → hasSock = true → ¬ now - last < interval → ch = 4 →
      encOk = true → sendOk = true →
      udpSendFrame inited hasSock last now interval ch encOk sendOk = true) ∧
    (inited = false →
      udpSendFrame inited hasSock last now interval ch encOk sendOk = false) ∧
    (hasSock = false →
      udpSendFrame inited hasSock last now interval ch encOk sendOk = false) ∧
    (¬ now - last < interval → ch ≠ 4 → ch ≠ 3 →
      udpSendFrame inited hasSock last now interval ch encOk sendOk = false) ∧
    (¬ now - last < interval → encOk = false →
      udpSendFrame inited hasSock last now interval ch encOk sendOk = false) ∧
    (inited = true → now - last < interval →
      ndiSendFrame inited last now interval m bOk = true) ∧
    (inited = true → ¬ now - last < interval → m = NdiMethod.direct →
      bOk = true → ndiSendFrame inited last now interval m bOk = true) ∧
    (inited = false → ndiSendFrame inited last now interval m bOk = false) ∧
    (¬ now - last < interval → bOk = false →
      ndiSendFrame inited last now interval m bOk = false) ∧
    (¬ now - last < interval → m = NdiMethod.unavailable →
      ndiSendFrame inited last now interval m bOk = false) := by
  refine ⟨?_, ?_, ?_, ?_, ?_, ?_, ?_, ?_, ?_, ?_, ?_⟩
  · intro h1 h2 h3
    subst h1; subst h2
    simp [udpSendFrame, h3]
  · intro h1 h2 h3 h4 h5 h6
    subst h1; subst h2; subst h4; subst h5; subst h6
    simp [udpSendFrame, h3]
  · intro h1
    subst h1
    simp [udpSendFrame]
  · intro h1
    subst h1
    simp [udpSendFrame]
  · intro h1 h2 h3
    simp [udpSendFrame, h1, h2, h3]
  · intro h1 h2
    subst h2
    simp [udpSendFrame, h1]
  · intro h1 h2
    subst h1
    simp [ndiSendFrame, h2]
  · intro h1 h2 h3 h4
    subst h1; subst h3; subst h4
    simp [ndiSendFrame, h2]
  · intro h1
    subst h1
    simp [ndiSendFrame]
  · intro h1 h2
    subst h2
    cases m <;> simp [ndiSendFrame, h1]
  · intro h1 h2
    subst h2
    simp [ndiSendFrame, h1]

/-- **C9 witness**: a rate-limited drop on an initialized UDP sink returns
`True` (offer at time 0 with `last_frame_time = 0` and interval 1/10). -/
theorem send_result_semantics_witness :
    udpSendFrame true true 0 0 (1 / 10) 4 true true = true :=
  (send_result_semantics true true 0 0 (1 / 10) 4 true true
    NdiMethod.direct true).1 rfl rfl (by norm_num)

/-! ## Connection-count theorems (C10) -/

/-- **C10.**  `get_connection_count` of the UDP, HTTP, and Spout sinks is
exactly 1 when the sink is initialized and sending and 0 otherwise,
independent of actual receivers; the direct-NDI backend instead reports the
receiver count from `ndi.send_get_no_connections`, and the FFmpeg-NDI
backend again only 1/0 by process liveness. -/
theorem connection_count_semantics (u : UdpState) (hs : HttpState)
    (sp : SpoutState) (n : NdiState) (receivers : Nat) :
    udpConnectionCount u = (if u.inited && u.sending then 1 else 0) ∧
    httpConnectionCount hs = (if hs.inited && hs.sending then 1 else 0) ∧
    spoutConnectionCount sp = (if sp.inited && sp.sending then 1 else 0) ∧
    (n.inited = true → n.method = NdiMethod.direct → n.sender = some () →
      ndiConnectionCount n receivers = receivers) ∧
    (n.inited = true → n.method = NdiMethod.ffmpeg →
      ndiConnectionCount n receivers =
        (if n.ffmpegProc.isSome then 1 else 0)) := by
  refine ⟨rfl, rfl, rfl, ?_, ?_⟩
  · intro h1 h2 h3
    simp [ndiConnectionCount, h1, h2, h3]
  · intro h1 h2
    simp [ndiConnectionCount, h1, h2]

/-- **C10 witness**: a connected direct-NDI sender with 7 receivers
reports 7. -/
theorem connection_count_semantics_witness :
    ndiConnectionCount ⟨true, true, NdiMethod.direct, some (), none, 0, 0⟩ 7 = 7 :=
  (connection_count_semantics ⟨true, true, some (), 0⟩ ⟨true, true, some (), 0⟩
    ⟨true, true, some (), 0⟩
    ⟨true, true, NdiMethod.direct, some (), none, 0, 0⟩ 7).2.2.2.1 rfl rfl rfl

/-! ## Sink-selection theorems (C5) -/

/-- **C5.**  With streaming enabled the selection chain tries Spout, then
NDI, then the configured fallback streamer, activating exactly the first
candidate whose initialization succeeds; when every candidate fails no sink
is active, the per-tick dispatch sends nothing (a no-op for the render
loop), and every uninitialized sink reports zero connections. -/
theorem sink_selection_priority (sa si na ni fi : Bool) (m : String) :
    ((sa && si) = true →
      selectStreaming true sa si na ni m fi = ActiveSink.spoutSink) ∧
    ((sa && si) = false → (na && ni) = true →
      selectStreaming true sa si na ni m fi = ActiveSink.ndiSink) ∧
    ((sa && si) = false → (na && ni) = false →
      selectStreaming true sa si na ni m fi =
        (match simpleStreamerKind m with
          | some k => if fi then k else ActiveSink.noSink
          | none => ActiveSink.noSink)) ∧
    (∀ b, updateStreamTarget ActiveSink.noSink b = ActiveSink.noSink) ∧
    (∀ u : UdpState, u.inited = false → udpConnectionCount u = 0) ∧
    (∀ h : HttpState, h.inited = false → httpConnectionCount h = 0) ∧
    (∀ s : SpoutState, s.inited = false → spoutConnectionCount s = 0) ∧
    (∀ n : NdiState, ∀ r : Nat, n.inited = false →
      ndiConnectionCount n r = 0) := by
  refine ⟨?_, ?_, ?_, fun b => rfl, ?_, ?_, ?_, ?_⟩
  · intro h
    cases sa <;> cases si <;> simp_all [selectStreaming]
  · intro h1 h2
    cases sa <;> cases si <;> cases na <;> cases ni <;>
      simp_all [selectStreaming]
  · intro h1 h2
    cases sa <;> cases si <;> cases na <;> cases ni <;>
      simp_all [selectStreaming]
  · intro u h
    simp [udpConnectionCount, udpIsConnected, h]
  · intro hs h
    simp [httpConnectionCount, httpIsConnected, h]
  · intro s h
    simp [spoutConnectionCount, spoutIsConnected, h]
  · intro n r h
    simp [ndiConnectionCount, h]

/-- **C5 witness**: Spout available and initialized wins the chain, and
with every candidate failed the chain yields no active sink. -/
theorem sink_selection_priority_witness :
    selectStreaming true true true false false "http" true = ActiveSink.spoutSink ∧
    selectStreaming true false false false false "nope" false = ActiveSink.noSink := by
  constructor
  · exact (sink_selection_priority true true false false true "http").1 rfl
  · rw [(sink_selection_priority false false false false false "nope").2.2.1 rfl rfl]
    decide
